import Mathlib

/-!
Shallow embedding of the fisher browser-extension background script
(background.js) and the content-script cache-key helper
(integrated_category_badge.js), with verification of the specified
properties of its authentication throttling, request deduplication,
caching and storage behaviour.

Times are modelled as integers (milliseconds, as produced by Date.now).
JavaScript string falsiness (null / empty string) is made explicit:
values that may be null are Option String, and the emptiness check on a
plain string mirrors the truthiness test on a JS string.
-/

namespace Fisher

/-! ### CONFIG constants (background.js, CONFIG) -/

def TOKEN_KEY : String := "mbf_token"

def AUTH_META_KEY : String := "mbf_auth_meta"

def HEALTH_CACHE_KEY : String := "mbf_health_cache"

def CACHE_DURATION : Int := 5 * 60 * 1000

def AUTH_THROTTLE_INTERVAL : Int := 2 * 60 * 60 * 1000

/-! ### Auth metadata record (AuthManager.getAuthMeta default / _executeAuth) -/

/-- The auth metadata record persisted under mbf_auth_meta.
Nullable string fields are Option String (null = none). -/
structure AuthMeta where
  lastTime : Int
  lastUser : Option String
  lastCsrf : Option String
  lastAttempt : Int
  failureCount : Nat
deriving Repr, DecidableEq

/-- Default metadata returned by AuthManager.getAuthMeta when the store
holds nothing under the auth-meta key. -/
def defaultAuthMeta : AuthMeta :=
  { lastTime := 0, lastUser := none, lastCsrf := none,
    lastAttempt := 0, failureCount := 0 }

/-- JS truthiness of a possibly-null string: !x is true when x is null
or the empty string. -/
def strFalsy : Option String → Bool
  | none => true
  | some s => s.isEmpty

/-- JS strict inequality current !== stored where stored may be null:
a string is always !== null, and two strings compare by value. -/
def strNeq (current : String) (stored : Option String) : Bool :=
  match stored with
  | none => true
  | some s => current != s

/-- The decision record returned by AuthManager.shouldPerformAuth. -/
structure AuthDecision where
  shouldAuth : Bool
  reason : String
deriving Repr, DecidableEq

/-- AuthManager.shouldPerformAuth, with Date.now() lifted to the
parameter now. Checks run in source order: missing token, missing csrf,
missing user, user change, csrf change, throttle window, retry after
failure. -/
def shouldPerformAuth (now : Int) (token : Option String) (meta : AuthMeta)
    (currentUser currentCsrf : String) : AuthDecision :=
  if strFalsy token then
    { shouldAuth := true, reason := "no_token" }
  else if currentCsrf.isEmpty then
    { shouldAuth := false, reason := "no_csrf" }
  else if currentUser.isEmpty then
    { shouldAuth := false, reason := "no_user" }
  else if strNeq currentUser meta.lastUser then
    { shouldAuth := true, reason := "user_changed" }
  else if strNeq currentCsrf meta.lastCsrf then
    { shouldAuth := true, reason := "csrf_changed" }
  else if now - meta.lastTime > AUTH_THROTTLE_INTERVAL then
    { shouldAuth := true, reason := "time_elapsed" }
  else if meta.failureCount > 0 && now - meta.lastAttempt > 30000 then
    { shouldAuth := true, reason := "retry_after_failure" }
  else
    { shouldAuth := false, reason := "throttled" }

/-! ### Deduplication guard (AuthManager.performAuthentication)

performAuthentication synchronously checks pendingAuthRequest: when it
is non-null the same pending promise is returned; otherwise a new
_executeAuth promise is stored there and started, and a finally clause
clears the guard when that promise settles, successfully or not. The
event loop serialises these synchronous sections, so the behaviour is a
state machine over the guard: each _executeAuth run gets a fresh id. -/

/-- What a performAuthentication call returns: the already-pending
promise, or a newly started one. -/
inductive AuthCall where
  | joined (id : Nat)
  | started (id : Nat)
deriving Repr, DecidableEq

/-- Guard state: the pending promise id (if any), the ids of
_executeAuth runs started but not yet settled, and a fresh-id supply. -/
structure GuardState where
  pending : Option Nat
  running : List Nat
  nextId : Nat
deriving Repr, DecidableEq

def initGuard : GuardState := { pending := none, running := [], nextId := 0 }

/-- Events: a performAuthentication call, or the pending promise
settling with success or failure. -/
inductive GuardEvent where
  | call
  | settle (success : Bool)
deriving Repr, DecidableEq

/-- One step of the guard machine, returning the new state and, for a
call event, what the call returned. -/
def guardStep (s : GuardState) : GuardEvent → GuardState × Option AuthCall
  | .call =>
    match s.pending with
    | some i => (s, some (.joined i))
    | none =>
      ({ pending := some s.nextId, running := s.nextId :: s.running,
         nextId := s.nextId + 1 }, some (.started s.nextId))
  | .settle _ =>
    match s.pending with
    | some i => ({ s with pending := none, running := s.running.erase i }, none)
    | none => (s, none)

/-- The state reached from the initial guard state by a list of events. -/
def guardRun (evs : List GuardEvent) : GuardState :=
  evs.foldl (fun s e => (guardStep s e).1) initGuard

/-- Invariant tying the running set to the guard. -/
def GuardInv (s : GuardState) : Prop :=
  (s.pending = none → s.running = []) ∧
  (∀ i, s.pending = some i → s.running = [i])

/-! ### In-memory TTL cache (background.js, class Cache) -/

structure CacheEntry (α : Type) where
  value : α
  expiry : Int
deriving Repr, DecidableEq

/-- The Map backing the cache. Map.set replaces the binding for a key;
this is modelled by consing the new binding and dropping old ones. -/
abbrev CacheMap (α : Type) := List (String × CacheEntry α)

namespace Cache

/-- Cache.set: store value under key with expiry now + ttl (the source
default ttl is CACHE_DURATION; callers in this embedding always pass
it explicitly). -/
def set (m : CacheMap α) (now : Int) (key : String) (value : α)
    (ttl : Int) : CacheMap α :=
  (key, { value := value, expiry := now + ttl }) :: m.filter (fun p => p.1 != key)

/-- Cache.get: a missing key yields null; an expired entry is deleted
and yields null; otherwise the stored value is returned. The updated
map is returned alongside. -/
def get (m : CacheMap α) (now : Int) (key : String) : Option α × CacheMap α :=
  match m.lookup key with
  | none => (none, m)
  | some e =>
    if now > e.expiry then (none, m.filter (fun p => p.1 != key))
    else (some e.value, m)

/-- Cache.clear. -/
def clear (_ : CacheMap α) : CacheMap α := []

end Cache

/-! ### chrome.storage.local and StorageManager -/

/-- JSON-ish values held in extension storage. -/
inductive JsonVal where
  | jnull
  | jbool (b : Bool)
  | jnum (n : Int)
  | jstr (s : String)
  | jobj (fields : List (String × JsonVal))

/-- JS truthiness of a storage value. -/
def jsTruthy : JsonVal → Bool
  | .jnull => false
  | .jbool b => b
  | .jnum n => n != 0
  | .jstr s => !s.isEmpty
  | .jobj _ => true

/-- StorageManager state: its memo cache in front of chrome.storage.local. -/
structure StorageState where
  cache : List (String × JsonVal)
  chrome : List (String × JsonVal)

/-- Model of chrome.storage.local.get as used by StorageManager.get:
data[key] || null collapses an absent or falsy value to null. -/
def chromeRead (st : List (String × JsonVal)) (key : String) : JsonVal :=
  match st.lookup key with
  | some v => if jsTruthy v then v else .jnull
  | none => .jnull

namespace StorageManager

/-- StorageManager.get: serve from the memo cache, else read chrome
storage and memoise the (possibly null) value. -/
def get (s : StorageState) (key : String) : JsonVal × StorageState :=
  match s.cache.lookup key with
  | some v => (v, s)
  | none =>
    let v := chromeRead s.chrome key
    (v, { s with cache := (key, v) :: s.cache })

/-- StorageManager.set: update the memo cache and chrome storage. -/
def set (s : StorageState) (key : String) (v : JsonVal) : StorageState :=
  { cache := (key, v) :: s.cache.filter (fun p => p.1 != key),
    chrome := (key, v) :: s.chrome.filter (fun p => p.1 != key) }

/-- StorageManager.remove: drop the key from the memo cache and from
chrome storage. -/
def remove (s : StorageState) (key : String) : StorageState :=
  { cache := s.cache.filter (fun p => p.1 != key),
    chrome := s.chrome.filter (fun p => p.1 != key) }

end StorageManager

/-! ### ApiClient.checkHealth and the storage-writing operations -/

/-- The /health response as checkHealth consumes it, plus the error
field checkHealth itself puts on a failed check. -/
structure HealthResponse where
  status : String
  category : Option JsonVal
  error : Option String

/-- ApiClient.checkHealth with the fetch outcome as a parameter. Returns
the health data, the updated in-memory cache, the updated storage state
and the list of chrome.storage keys written: on a fresh successful
check carrying a category object, the category is persisted under the
health-cache storage key. -/
def checkHealth (mem : CacheMap HealthResponse) (s : StorageState) (now : Int)
    (api : Except String HealthResponse) :
    HealthResponse × CacheMap HealthResponse × StorageState × List String :=
  match Cache.get mem now "health_check" with
  | (some cached, mem1) => (cached, mem1, s, [])
  | (none, mem1) =>
    match api with
    | .ok data =>
      let mem2 := Cache.set mem1 now "health_check" data 60000
      match data.category with
      | some c =>
        (data, mem2,
          StorageManager.set s HEALTH_CACHE_KEY
            (.jobj [("category", c), ("timestamp", .jnum now)]),
          [HEALTH_CACHE_KEY])
      | none => (data, mem2, s, [])
    | .error e =>
      let errData : HealthResponse :=
        { status := "unhealthy", category := none, error := some e }
      (errData, Cache.set mem1 now "health_check" errData 30000, s, [])

/-- AuthManager.setToken: stores only a truthy token. Returns the new
state and the chrome.storage keys written. -/
def setToken (s : StorageState) (token : Option String) : StorageState × List String :=
  match token with
  | some t =>
    if t.isEmpty then (s, [])
    else (StorageManager.set s TOKEN_KEY (.jstr t), [TOKEN_KEY])
  | none => (s, [])

/-- The JS object _executeAuth and forceReauth persist for the auth
metadata. -/
def AuthMeta.toJson (m : AuthMeta) : JsonVal :=
  .jobj [("lastTime", .jnum m.lastTime),
         ("lastUser", match m.lastUser with | none => .jnull | some u => .jstr u),
         ("lastCsrf", match m.lastCsrf with | none => .jnull | some c => .jstr c),
         ("lastAttempt", .jnum m.lastAttempt),
         ("failureCount", .jnum m.failureCount)]

/-- AuthManager.setAuthMeta. Returns the new state and the
chrome.storage keys written. -/
def setAuthMeta (s : StorageState) (m : AuthMeta) : StorageState × List String :=
  (StorageManager.set s AUTH_META_KEY m.toJson, [AUTH_META_KEY])

/-- The background-script operations that touch chrome.storage.local
with a write or removal: AuthManager.setToken, AuthManager.setAuthMeta
(used by _executeAuth and forceReauth), ApiClient.checkHealth, and the
CLEAR_TOKEN handler. Every other code path only reads storage. -/
inductive StorageOp where
  | opSetToken (token : Option String)
  | opSetAuthMeta (meta : AuthMeta)
  | opCheckHealth (mem : CacheMap HealthResponse) (now : Int)
      (api : Except String HealthResponse)
  | opClearToken

/-- The chrome.storage keys an operation writes (or removes) when run
against storage state s. -/
def StorageOp.writes (s : StorageState) : StorageOp → List String
  | .opSetToken t => (setToken s t).2
  | .opSetAuthMeta m => (setAuthMeta s m).2
  | .opCheckHealth mem now api => (checkHealth mem s now api).2.2.2
  | .opClearToken => [TOKEN_KEY]

/-! ### AuthManager.getAuthMeta at the JS-object level -/

/-- The object literal AuthManager.getAuthMeta falls back to, with the
fields in source order. -/
def defaultAuthMetaObj : List (String × JsonVal) :=
  [("lastTime", .jnum 0), ("lastUser", .jnull), ("lastCsrf", .jnull),
   ("lastAttempt", .jnum 0), ("failureCount", .jnum 0)]

/-- AuthManager.getAuthMeta: meta || default. The stored value under
the auth-meta key is only ever an object (written by setAuthMeta) or
null, so the fallback fires exactly on a non-object read. -/
def getAuthMetaObj (s : StorageState) : List (String × JsonVal) × StorageState :=
  let r := StorageManager.get s AUTH_META_KEY
  match r.1 with
  | .jobj fields => (fields, r.2)
  | _ => (defaultAuthMetaObj, r.2)

/-! ### Message dispatcher (chrome.runtime.onMessage listener) -/

/-- A response delivered through sendResponse; only the success and
error fields matter to the claims, remaining payload is abstracted. -/
structure BgResponse where
  success : Option Bool
  error : Option String
deriving Repr, DecidableEq

/-- The message types with handlers in MessageHandlers. -/
def knownMessageTypes : List String :=
  ["HANDLE_AUTH", "GET_AUTH_STATUS", "FORCE_REAUTH", "CLEAR_TOKEN",
   "GET_TOKEN", "SET_USER_STATUS", "GET_COOKIES", "CHECK_HEALTH",
   "GET_HEALTH_CATEGORY", "FETCH_USERS_CARD_STATUS",
   "FETCH_USERS_BY_CATEGORY"]

/-- A handler run either completes having sent its single response, or
rejects with an error message before responding. -/
inductive HandlerRun where
  | completes (r : BgResponse)
  | rejects (e : String)
deriving Repr, DecidableEq

/-- The onMessage listener: an unknown type is answered with an error
response; a known type runs its handler, and a handler rejection is
caught and answered with success false and the error message. -/
def onMessageDispatch (msgType : String) (run : HandlerRun) : List BgResponse :=
  if msgType ∈ knownMessageTypes then
    match run with
    | .completes r => [r]
    | .rejects e => [{ success := some false, error := some e }]
  else
    [{ success := none, error := some "Unknown message type" }]

/-- The try/catch shape shared by the MessageHandlers bodies: a thrown
or rejected error becomes a single response with success false and the
error message. -/
def handlerTryCatch (body : Except String BgResponse) : BgResponse :=
  match body with
  | .ok r => r
  | .error e => { success := some false, error := some e }

/-! ### AuthManager._executeAuth -/

/-- The parsed /set_http_data response: a non-object value, or an
object possibly carrying a token field. -/
inductive ApiResp where
  | invalid
  | valid (token : Option String)
deriving Repr, DecidableEq

/-- The value an _executeAuth run resolves with. -/
structure AuthResult where
  success : Bool
  token : Option String
  error : Option String
  duration : Int
deriving Repr, DecidableEq

/-- One _executeAuth run with its effects explicit. meta0 and token0
are the stored metadata and token at entry; healthStatus/healthErr the
checkHealth outcome; cookies the record from getAllRelevantCookies; api
the outcome of sendAuthData. Date.now() at entry is startTime, at
completion endTime. Returns the resolved value, the metadata written by
setAuthMeta, the stored token after the run, and the payload given to
sendAuthData when it was called. -/
def executeAuth (startTime endTime : Int) (currentUser csrfToken : String)
    (meta0 : AuthMeta) (token0 : Option String)
    (healthStatus : String) (healthErr : Option String)
    (cookies : List (String × String)) (api : Except String ApiResp) :
    AuthResult × AuthMeta × Option String ×
      Option (List (String × String) × String) :=
  let failMeta : AuthMeta :=
    { meta0 with lastAttempt := startTime, failureCount := meta0.failureCount + 1 }
  let fail : String → Option (List (String × String) × String) →
      AuthResult × AuthMeta × Option String ×
        Option (List (String × String) × String) :=
    fun e sent =>
      ({ success := false, token := none, error := some e,
         duration := endTime - startTime }, failMeta, token0, sent)
  if healthStatus ≠ "healthy" then
    fail ("API unhealthy: " ++
      (match healthErr with
       | some e => if e.isEmpty then "Unknown error" else e
       | none => "Unknown error")) none
  else if cookies.length = 0 then
    fail "No cookies found" none
  else
    match api with
    | .error e => fail e (some (cookies, csrfToken))
    | .ok .invalid => fail "Invalid API response" (some (cookies, csrfToken))
    | .ok (.valid tok) =>
      ({ success := true, token := tok, error := none,
         duration := endTime - startTime },
       { lastTime := endTime, lastUser := some currentUser,
         lastCsrf := some csrfToken, lastAttempt := startTime,
         failureCount := 0 },
       (if strFalsy tok then token0 else tok),
       some (cookies, csrfToken))

/-- The metadata object AuthManager.forceReauth resets storage to
before re-running handleAuthRequest. -/
def forceReauthMeta : AuthMeta :=
  { lastTime := 0, lastUser := none, lastCsrf := none,
    lastAttempt := 0, failureCount := 0 }

/-! ### FETCH_USERS_CARD_STATUS deduplication key -/

/-- A user entry of a FETCH_USERS_CARD_STATUS request. -/
structure JsUser where
  user_id : String
deriving Repr, DecidableEq

/-- The expression u.user_id || u: the id when truthy, else the object
itself as it stringifies inside the join. -/
def userKeyPart (u : JsUser) : String :=
  if u.user_id.isEmpty then "[object Object]" else u.user_id

/-- JS array sort with the default comparator on strings sorts
into nondescending lexicographic order; since that order is total and
antisymmetric the sorted list is unique, so insertion sort models it. -/
def jsSort (l : List String) : List String :=
  l.insertionSort (· ≤ ·)

/-- The dedup key computed both by the FETCH_USERS_CARD_STATUS handler
and by ApiClient._makeCacheKey: card_id, a colon, and the sorted
comma-joined user ids. -/
def makeCacheKey (cardId : String) (users : List JsUser) : String :=
  cardId ++ ":" ++ String.intercalate "," (jsSort (users.map userKeyPart))

end Fisher

/-! ## Shared helper lemmas -/

theorem Fisher.guardInv_init : Fisher.GuardInv Fisher.initGuard := by
  constructor
  · intro _; rfl
  · intro i h; simp [Fisher.initGuard] at h

theorem Fisher.guardInv_step (s : Fisher.GuardState) (e : Fisher.GuardEvent)
    (h : Fisher.GuardInv s) : Fisher.GuardInv (Fisher.guardStep s e).1 := by
  obtain ⟨hn, hs⟩ := h
  cases e with
  | call =>
    cases hp : s.pending with
    | none =>
      have hr : s.running = [] := hn hp
      constructor
      · intro hne
        simp [Fisher.guardStep, hp] at hne
      · intro i hi
        simp [Fisher.guardStep, hp] at hi ⊢
        simp [hr, hi]
    | some i =>
      simp only [Fisher.guardStep, hp]
      exact ⟨hn, hs⟩
  | settle b =>
    cases hp : s.pending with
    | none =>
      simp only [Fisher.guardStep, hp]
      exact ⟨hn, hs⟩
    | some i =>
      constructor
      · intro _
        simp [Fisher.guardStep, hp, hs i hp]
      · intro j hj
        simp [Fisher.guardStep, hp] at hj

theorem Fisher.guardInv_run (evs : List Fisher.GuardEvent) :
    Fisher.GuardInv (Fisher.guardRun evs) := by
  suffices h : ∀ s, Fisher.GuardInv s →
      Fisher.GuardInv (evs.foldl (fun s e => (Fisher.guardStep s e).1) s) by
    exact h Fisher.initGuard Fisher.guardInv_init
  induction evs with
  | nil => intro s hs; exact hs
  | cons e t ih => intro s hs; exact ih _ (Fisher.guardInv_step s e hs)

theorem Fisher.lookup_filter_ne {β : Type} (l : List (String × β)) (k : String) :
    (l.filter (fun p => p.1 != k)).lookup k = none := by
  induction l with
  | nil => rfl
  | cons p t ih =>
    rcases p with ⟨a, b⟩
    by_cases h : a = k
    · simp only [List.filter_cons]
      simp [h, ih]
    · simp only [List.filter_cons]
      have hb : ((a, b).1 != k) = true := by simp [h]
      simp only [hb, if_true]
      rw [List.lookup]
      have hk : (k == a) = false := by simp [Ne.symm h]
      simp [hk, ih]

/-- C1: shouldPerformAuth is a pure function of token, metadata, user,
csrf and the current time, and it decides to authenticate exactly when
the token is absent, or the token is present, user and csrf are
non-empty, and the user changed, or the csrf changed, or more than two
hours elapsed since the last auth, or there is a recorded failure and
more than thirty seconds elapsed since the last attempt; in every other
case (including a present token with missing csrf or missing user) it
decides to skip. -/
theorem C1_shouldPerformAuth_iff (now : Int) (token : Option String)
    (meta : Fisher.AuthMeta) (u c : String) :
    (Fisher.shouldPerformAuth now token meta u c).shouldAuth = true ↔
      (Fisher.strFalsy token = true ∨
        (Fisher.strFalsy token = false ∧ u.isEmpty = false ∧ c.isEmpty = false ∧
          (meta.lastUser ≠ some u ∨ meta.lastCsrf ≠ some c ∨
            now - meta.lastTime > Fisher.AUTH_THROTTLE_INTERVAL ∨
            (meta.failureCount > 0 ∧ now - meta.lastAttempt > 30000)))) := by
  unfold Fisher.shouldPerformAuth Fisher.strNeq
  rcases token with _ | t
  · simp [Fisher.strFalsy]
  · rcases meta with ⟨lt, lu, lc, la, fc⟩
    rcases lu with _ | lu <;> rcases lc with _ | lc <;>
      simp only [Fisher.strFalsy] <;>
      split_ifs <;>
      simp_all [bne_iff_ne, not_or] <;> tauto

/-- C2: the deduplication guard admits at most one running _executeAuth
in every reachable state; a performAuthentication call made while
pendingAuthRequest is non-null returns that same pending promise and
changes nothing (no new authentication is started); and once the
pending authentication settles — with success or failure — the guard is
reset to null. -/
theorem C2_auth_dedup_guard (evs : List Fisher.GuardEvent) :
    (Fisher.guardRun evs).running.length ≤ 1 ∧
    (∀ i, (Fisher.guardRun evs).pending = some i →
      Fisher.guardStep (Fisher.guardRun evs) .call =
        (Fisher.guardRun evs, some (.joined i))) ∧
    (∀ b, (Fisher.guardStep (Fisher.guardRun evs) (.settle b)).1.pending = none) := by
  obtain ⟨hn, hs⟩ := Fisher.guardInv_run evs
  refine ⟨?_, ?_, ?_⟩
  · cases hp : (Fisher.guardRun evs).pending with
    | none => simp [hn hp]
    | some i => simp [hs i hp]
  · intro i hi
    simp [Fisher.guardStep, hi]
  · intro b
    cases hp : (Fisher.guardRun evs).pending with
    | none => simp [Fisher.guardStep, hp]
    | some i => simp [Fisher.guardStep, hp]

/-- Witness for C2 at the concrete trace with one call in flight. -/
theorem C2_auth_dedup_guard_witness :
    Fisher.guardStep (Fisher.guardRun [.call]) .call =
      (Fisher.guardRun [.call], some (.joined 0)) ∧
    (Fisher.guardStep (Fisher.guardRun [.call]) (.settle false)).1.pending = none := by
  have h := C2_auth_dedup_guard [.call]
  exact ⟨h.2.1 0 (by rfl), h.2.2 false⟩

/-- C3: after Cache.set at time t with time-to-live ttl, Cache.get at
time tq returns the value exactly when tq ≤ t + ttl; past the deadline
it returns null and the entry is removed from the returned map; and
Cache.get of an absent key returns null without changing the map. -/
theorem C3_cache_ttl {α : Type} (m : Fisher.CacheMap α) (t tq : Int)
    (k : String) (v : α) (ttl : Int) :
    ((Fisher.Cache.get (Fisher.Cache.set m t k v ttl) tq k).1 =
        if tq ≤ t + ttl then some v else none) ∧
    (tq > t + ttl →
      ((Fisher.Cache.get (Fisher.Cache.set m t k v ttl) tq k).2).lookup k = none) ∧
    (m.lookup k = none → Fisher.Cache.get m tq k = (none, m)) := by
  have hl : (Fisher.Cache.set m t k v ttl).lookup k =
      some { value := v, expiry := t + ttl } := by
    simp [Fisher.Cache.set, List.lookup]
  refine ⟨?_, ?_, ?_⟩
  · by_cases hle : tq ≤ t + ttl
    · have hng : ¬ tq > t + ttl := not_lt.mpr hle
      simp [Fisher.Cache.get, hl, hng, hle]
    · have hg : tq > t + ttl := lt_of_not_ge hle
      simp [Fisher.Cache.get, hl, hg, hle]
  · intro hgt
    simp [Fisher.Cache.get, hl, hgt, Fisher.lookup_filter_ne]
  · intro hnone
    simp [Fisher.Cache.get, hnone]

/-- Witness for C3 at a concrete expired entry and a concrete miss. -/
theorem C3_cache_ttl_witness :
    ((Fisher.Cache.get (Fisher.Cache.set ([] : Fisher.CacheMap Nat) 0 "k" 7 5) 6 "k").2).lookup "k" = none ∧
    Fisher.Cache.get ([] : Fisher.CacheMap Nat) 3 "k" = (none, []) := by
  have h := C3_cache_ttl ([] : Fisher.CacheMap Nat) 0 6 "k" 7 5
  exact ⟨h.2.1 (by decide), h.2.2 (by rfl)⟩

/-- C4 counterexample: ApiClient.checkHealth, on a fresh successful
health check whose payload carries a category, writes the key
mbf_health_cache to chrome.storage.local, which is neither the token
key nor the auth-meta key — so the token and auth-meta keys are not the
only persisted keys. -/
theorem C4_storage_only_auth_keys_cex :
    (Fisher.checkHealth [] ⟨[], []⟩ 0
        (.ok { status := "healthy", category := some (.jobj []), error := none })).2.2.2 =
      [Fisher.HEALTH_CACHE_KEY] ∧
    Fisher.HEALTH_CACHE_KEY ≠ Fisher.TOKEN_KEY ∧
    Fisher.HEALTH_CACHE_KEY ≠ Fisher.AUTH_META_KEY := by
  exact ⟨rfl, by decide, by decide⟩

/-- C4 amended: every key any background-script operation writes to
chrome.storage.local is the token key, the auth-meta key, or the
health-cache key under which checkHealth persists the category
record; everything else lives only in the in-memory cache. -/
theorem C4_storage_write_keys (s : Fisher.StorageState) (op : Fisher.StorageOp) :
    ∀ k ∈ op.writes s,
      k = Fisher.TOKEN_KEY ∨ k = Fisher.AUTH_META_KEY ∨
        k = Fisher.HEALTH_CACHE_KEY := by
  intro k hk
  cases op with
  | opSetToken t =>
    cases t with
    | none => simp [Fisher.StorageOp.writes, Fisher.setToken] at hk
    | some v =>
      by_cases hv : v.isEmpty <;>
        simp [Fisher.StorageOp.writes, Fisher.setToken, hv] at hk
      exact Or.inl hk
  | opSetAuthMeta m =>
    simp [Fisher.StorageOp.writes, Fisher.setAuthMeta] at hk
    exact Or.inr (Or.inl hk)
  | opClearToken =>
    simp [Fisher.StorageOp.writes] at hk
    exact Or.inl hk
  | opCheckHealth mem now api =>
    simp only [Fisher.StorageOp.writes] at hk
    unfold Fisher.checkHealth at hk
    rcases hg : Fisher.Cache.get mem now "health_check" with ⟨o, mem1⟩
    rw [hg] at hk
    cases o with
    | some cached => simp at hk
    | none =>
      cases api with
      | error e => simp at hk
      | ok data =>
        cases hc : data.category with
        | none => simp [hc] at hk
        | some cat =>
          simp [hc] at hk
          exact Or.inr (Or.inr hk)

/-- Witness for the amended C4 at a concrete setToken write. -/
theorem C4_storage_write_keys_witness :
    Fisher.TOKEN_KEY = Fisher.TOKEN_KEY ∨ Fisher.TOKEN_KEY = Fisher.AUTH_META_KEY ∨
      Fisher.TOKEN_KEY = Fisher.HEALTH_CACHE_KEY := by
  exact C4_storage_write_keys ⟨[], []⟩ (.opSetToken (some "tok"))
    Fisher.TOKEN_KEY (by decide)

/-- C5: the dispatcher always delivers exactly one response per
message; on a known type whose handler rejects, the response has
success false and carries the error message (the shared handler
try/catch produces the same shape for thrown errors); on an unknown
type the sender receives the error response. -/
theorem C5_dispatch_single_response (msgType : String)
    (run : Fisher.HandlerRun) (e : String) :
    (Fisher.onMessageDispatch msgType run).length = 1 ∧
    (msgType ∈ Fisher.knownMessageTypes →
      Fisher.onMessageDispatch msgType (.rejects e) =
        [{ success := some false, error := some e }]) ∧
    (msgType ∉ Fisher.knownMessageTypes →
      Fisher.onMessageDispatch msgType run =
        [{ success := none, error := some "Unknown message type" }]) ∧
    Fisher.handlerTryCatch (.error e) =
      { success := some false, error := some e } := by
  refine ⟨?_, ?_, ?_, rfl⟩
  · by_cases h : msgType ∈ Fisher.knownMessageTypes <;> cases run <;>
      simp [Fisher.onMessageDispatch, h]
  · intro h; simp [Fisher.onMessageDispatch, h]
  · intro h; simp [Fisher.onMessageDispatch, h]

/-- Witness for C5 at a known rejecting handler and an unknown type. -/
theorem C5_dispatch_single_response_witness :
    Fisher.onMessageDispatch "HANDLE_AUTH" (.rejects "boom") =
      [{ success := some false, error := some "boom" }] ∧
    Fisher.onMessageDispatch "NOT_A_TYPE" (.rejects "boom") =
      [{ success := none, error := some "Unknown message type" }] := by
  exact ⟨(C5_dispatch_single_response "HANDLE_AUTH" (.rejects "boom") "boom").2.1
      (by decide),
    (C5_dispatch_single_response "NOT_A_TYPE" (.rejects "boom") "boom").2.2.1
      (by decide)⟩

/-- C6 counterexample: the default metadata record getAuthMeta returns
on an empty store carries a fifth field, lastAttempt, so the record
does not consist of exactly the four fields the spec names (last auth
time, last user, last csrf, failure count). -/
theorem C6_meta_fields_cex :
    "lastAttempt" ∈ (Fisher.getAuthMetaObj ⟨[], []⟩).1.map Prod.fst ∧
    (Fisher.getAuthMetaObj ⟨[], []⟩).1.map Prod.fst ≠
      ["lastTime", "lastUser", "lastCsrf", "failureCount"] := by
  decide

/-- C6 amended: the persisted auth metadata record consists of exactly
the five fields lastTime, lastUser, lastCsrf, lastAttempt and
failureCount, and AuthManager.getAuthMeta on an empty store returns
the record with these fields at their zero/null defaults. -/
theorem C6_meta_default_record :
    (Fisher.getAuthMetaObj ⟨[], []⟩).1 = Fisher.defaultAuthMetaObj ∧
    Fisher.defaultAuthMetaObj.map Prod.fst =
      ["lastTime", "lastUser", "lastCsrf", "lastAttempt", "failureCount"] ∧
    Fisher.defaultAuthMetaObj.lookup "lastTime" = some (.jnum 0) ∧
    Fisher.defaultAuthMetaObj.lookup "lastUser" = some .jnull ∧
    Fisher.defaultAuthMetaObj.lookup "lastCsrf" = some .jnull ∧
    Fisher.defaultAuthMetaObj.lookup "lastAttempt" = some (.jnum 0) ∧
    Fisher.defaultAuthMetaObj.lookup "failureCount" = some (.jnum 0) := by
  exact ⟨rfl, rfl, rfl, rfl, rfl, rfl, rfl⟩

/-- C7: whenever _executeAuth sends auth data to the API it sends
exactly the collected cookie record and the csrf token; and in every
run whose collected cookie record is empty the authentication resolves
with success false and an error, without sending auth data. -/
theorem C7_no_cookies_auth_fails (st en : Int) (u c : String)
    (m0 : Fisher.AuthMeta) (t0 : Option String) (hstat : String)
    (he : Option String) (cookies : List (String × String))
    (api : Except String Fisher.ApiResp) :
    ((Fisher.executeAuth st en u c m0 t0 hstat he cookies api).2.2.2 ≠ none →
      (Fisher.executeAuth st en u c m0 t0 hstat he cookies api).2.2.2 =
        some (cookies, c)) ∧
    (cookies = [] →
      (Fisher.executeAuth st en u c m0 t0 hstat he cookies api).1.success = false ∧
      (Fisher.executeAuth st en u c m0 t0 hstat he cookies api).1.error ≠ none ∧
      (Fisher.executeAuth st en u c m0 t0 hstat he cookies api).2.2.2 = none) := by
  unfold Fisher.executeAuth
  by_cases hh : hstat = "healthy"
  · by_cases hc : cookies.length = 0
    · have hnil : cookies = [] := List.length_eq_zero.mp hc
      simp [hh, hc, hnil]
    · have hnn : cookies ≠ [] := fun hnil => hc (by simp [hnil])
      cases api with
      | error e => simp [hh, hc, hnn]
      | ok r => cases r <;> simp [hh, hc, hnn]
  · simp [hh]

/-- Witness for C7 at a concrete run with no cookies collected. -/
theorem C7_no_cookies_auth_fails_witness :
    (Fisher.executeAuth 0 5 "u" "c" Fisher.defaultAuthMeta none "healthy" none []
        (.ok (.valid (some "t")))).1.success = false ∧
    (Fisher.executeAuth 0 5 "u" "c" Fisher.defaultAuthMeta none "healthy" none []
        (.ok (.valid (some "t")))).1.error ≠ none ∧
    (Fisher.executeAuth 0 5 "u" "c" Fisher.defaultAuthMeta none "healthy" none []
        (.ok (.valid (some "t")))).2.2.2 = none := by
  exact (C7_no_cookies_auth_fails 0 5 "u" "c" Fisher.defaultAuthMeta none
    "healthy" none [] (.ok (.valid (some "t")))).2 rfl

/-- C8: on a failed _executeAuth run the metadata written is the entry
metadata with only lastAttempt set to the start time and failureCount
incremented — lastTime, lastUser and lastCsrf keep their values — and
the stored token is unchanged; on a successful run failureCount is
reset to 0 and lastUser/lastCsrf are set to the authenticated user and
csrf. -/
theorem C8_executeAuth_frame (st en : Int) (u c : String)
    (m0 : Fisher.AuthMeta) (t0 : Option String) (hstat : String)
    (he : Option String) (cookies : List (String × String))
    (api : Except String Fisher.ApiResp) :
    ((Fisher.executeAuth st en u c m0 t0 hstat he cookies api).1.success = false →
      (Fisher.executeAuth st en u c m0 t0 hstat he cookies api).2.1 =
        { m0 with lastAttempt := st, failureCount := m0.failureCount + 1 } ∧
      (Fisher.executeAuth st en u c m0 t0 hstat he cookies api).2.2.1 = t0) ∧
    ((Fisher.executeAuth st en u c m0 t0 hstat he cookies api).1.success = true →
      (Fisher.executeAuth st en u c m0 t0 hstat he cookies api).2.1.failureCount = 0 ∧
      (Fisher.executeAuth st en u c m0 t0 hstat he cookies api).2.1.lastUser = some u ∧
      (Fisher.executeAuth st en u c m0 t0 hstat he cookies api).2.1.lastCsrf = some c) := by
  unfold Fisher.executeAuth
  by_cases hh : hstat = "healthy" <;>
    by_cases hc : cookies.length = 0 <;>
      cases api with
      | error e => simp [hh, hc]
      | ok r => cases r <;> simp [hh, hc]

/-- Witness for C8 at a concrete failing run (unhealthy API). -/
theorem C8_executeAuth_frame_witness :
    (Fisher.executeAuth 0 5 "u" "c" Fisher.defaultAuthMeta (some "old")
        "unhealthy" (some "down") [("a", "b")] (.ok (.valid none))).2.1 =
      { Fisher.defaultAuthMeta with
        lastAttempt := 0,
        failureCount := Fisher.defaultAuthMeta.failureCount + 1 } ∧
    (Fisher.executeAuth 0 5 "u" "c" Fisher.defaultAuthMeta (some "old")
        "unhealthy" (some "down") [("a", "b")] (.ok (.valid none))).2.2.1 =
      some "old" := by
  exact (C8_executeAuth_frame 0 5 "u" "c" Fisher.defaultAuthMeta (some "old")
    "unhealthy" (some "down") [("a", "b")] (.ok (.valid none))).1 rfl

/-- C9: with the metadata reset by forceReauth, shouldPerformAuth on
any token and any non-empty user and csrf always decides to
authenticate — absent token gives no_token, present token gives
user_changed because the reset lastUser is null — and in particular it
never returns the throttled skip outcome. -/
theorem C9_forceReauth_always_auth (now : Int) (token : Option String)
    (u c : String) (hu : u.isEmpty = false) (hc : c.isEmpty = false) :
    (Fisher.shouldPerformAuth now token Fisher.forceReauthMeta u c).shouldAuth =
      true ∧
    ((Fisher.shouldPerformAuth now token Fisher.forceReauthMeta u c).reason =
        "no_token" ∨
      (Fisher.shouldPerformAuth now token Fisher.forceReauthMeta u c).reason =
        "user_changed") := by
  cases h : Fisher.strFalsy token <;>
    simp [Fisher.shouldPerformAuth, Fisher.forceReauthMeta, Fisher.strNeq,
      h, hu, hc]

/-- Witness for C9 at a concrete present token and non-empty data. -/
theorem C9_forceReauth_always_auth_witness :
    (Fisher.shouldPerformAuth 1000 (some "tok") Fisher.forceReauthMeta
        "alice" "csrf1").shouldAuth = true := by
  exact (C9_forceReauth_always_auth 1000 (some "tok") "alice" "csrf1"
    rfl rfl).1

/-- C10: the FETCH_USERS_CARD_STATUS deduplication key is invariant
under permutation of the users list, so a request identical up to
order hits the same entry of the pending-promise map and reuses the
pending promise instead of issuing a second API call. -/
theorem C10_cache_key_perm_invariant (cardId : String)
    (u1 u2 : List Fisher.JsUser) (h : u1.Perm u2) :
    Fisher.makeCacheKey cardId u1 = Fisher.makeCacheKey cardId u2 ∧
    (∀ pend : List (String × Nat),
      pend.lookup (Fisher.makeCacheKey cardId u1) =
        pend.lookup (Fisher.makeCacheKey cardId u2)) := by
  have hperm : (u1.map Fisher.userKeyPart).Perm (u2.map Fisher.userKeyPart) :=
    h.map Fisher.userKeyPart
  have hsorted1 : (Fisher.jsSort (u1.map Fisher.userKeyPart)).Sorted (· ≤ ·) :=
    List.sorted_insertionSort _ _
  have hsorted2 : (Fisher.jsSort (u2.map Fisher.userKeyPart)).Sorted (· ≤ ·) :=
    List.sorted_insertionSort _ _
  have hp : (Fisher.jsSort (u1.map Fisher.userKeyPart)).Perm
      (Fisher.jsSort (u2.map Fisher.userKeyPart)) :=
    ((List.perm_insertionSort _ _).trans hperm).trans
      (List.perm_insertionSort _ _).symm
  have heq : Fisher.jsSort (u1.map Fisher.userKeyPart) =
      Fisher.jsSort (u2.map Fisher.userKeyPart) :=
    List.eq_of_perm_of_sorted hp hsorted1 hsorted2
  have hkey : Fisher.makeCacheKey cardId u1 = Fisher.makeCacheKey cardId u2 := by
    unfold Fisher.makeCacheKey
    rw [heq]
  exact ⟨hkey, fun pend => by rw [hkey]⟩

/-- Witness for C10 at a concrete two-element permutation. -/
theorem C10_cache_key_perm_invariant_witness :
    Fisher.makeCacheKey "7" [⟨"2"⟩, ⟨"1"⟩] =
      Fisher.makeCacheKey "7" [⟨"1"⟩, ⟨"2"⟩] := by
  exact (C10_cache_key_perm_invariant "7" [⟨"2"⟩, ⟨"1"⟩] [⟨"1"⟩, ⟨"2"⟩]
    (by decide)).1
